import Mathlib

/-!
Shallow embedding of `bagua/torch_api/communication.py`: the communicator
bootstrap (rendezvous) protocol, the three-tier topology, and the
stream-ordered coalescing collectives.  Device-side effects (event record,
stream wait, transport calls, synchronize) are modelled as an explicit
action trace; the external transport is a parameter, and buffers are lists
of rationals.
-/

namespace Bagua

/-- A torch device: host memory or a CUDA device with an index. -/
inductive Device
  | cpu
  | cuda (idx : ℕ)
deriving DecidableEq

/-- A tensor: its device and its (flattened) element contents. -/
structure Tensor where
  device : Device
  data : List ℚ
deriving DecidableEq

/-- Ranks and sizes supplied by the environment
(`get_rank`, `get_world_size`, `get_local_rank`, `get_local_size`). -/
structure Env where
  rank : ℕ
  world_size : ℕ
  local_rank : ℕ
  local_size : ℕ
deriving DecidableEq

/-- The rendezvous key-value store (`dist.FileStore` / the c10d default
store).  `set` prepends, so `get?` finds the value last put. -/
structure Store where
  kv : List (String × String)
deriving DecidableEq

def Store.set (st : Store) (k v : String) : Store :=
  ⟨(k, v) :: st.kv⟩

/-- Association lookup used by `Store.get?`. -/
def lookupKV : List (String × String) → String → Option String
  | [], _ => none
  | (k', v) :: rest, k => if k' = k then some v else lookupKV rest k

def Store.get? (st : Store) (k : String) : Option String :=
  lookupKV st.kv k

/-- A `BaguaSingleCommunicatorPy` handle as constructed by the bootstrap
(the bound stream pointer is opaque and omitted). -/
structure Comm where
  rank : ℕ
  nranks : ℕ
  device_id : ℕ
  nccl_unique_id : String
deriving DecidableEq

/-- The key `f"\x7bcomm_type\x7d-\x7broot\x7d-unique_id"` used by
`gen_nccl_unique_id`. -/
def ncclKey (comm_type : String) (root : ℕ) : String :=
  comm_type ++ "-" ++ toString root ++ "-unique_id"

/-- `gen_nccl_unique_id`: the root rank generates a fresh identifier
(modelled as the input `fresh`) and `set`s it; every other rank `get`s it.
`none` models a follower blocking on `store.get` because the key is not yet
present. -/
def gen_nccl_unique_id (comm_type : String) (root : ℕ) (env : Env)
    (st : Store) (fresh : String) : Option (String × Store) :=
  let key := ncclKey comm_type root
  if env.rank = root then
    some (fresh, st.set key fresh)
  else
    match st.get? key with
    | some v => some (v, st)
    | none => none

/-- `init_bagua_inter_communicator`: every rank first runs the rendezvous
for purpose `bagua_inter_comm`; only then do ranks whose
`rank % local_size` differs from `leader_rank` get `none`.  The outer
`none` means the rendezvous `get` blocked (key not yet published). -/
def init_bagua_inter_communicator (env : Env) (leader_rank : ℕ) (st : Store)
    (fresh : String) (device_id : Option ℕ) : Option (Option Comm × Store) :=
  let did := device_id.getD env.local_rank
  match gen_nccl_unique_id "bagua_inter_comm" leader_rank env st fresh with
  | none => none
  | some (nccl_unique_id, st') =>
    if env.rank % env.local_size ≠ leader_rank then
      some (none, st')
    else
      some (some { rank := env.rank / env.local_size,
                   nranks := env.world_size / env.local_size,
                   device_id := did,
                   nccl_unique_id := nccl_unique_id }, st')

/-- `init_bagua_intra_communicator`: rendezvous rooted at the first rank of
this rank's node, then a communicator of the node's ranks. -/
def init_bagua_intra_communicator (env : Env) (st : Store) (fresh : String)
    (device_id : Option ℕ) : Option (Comm × Store) :=
  let did := device_id.getD env.local_rank
  match gen_nccl_unique_id "bagua_intra_comm"
      (env.rank / env.local_size * env.local_size) env st fresh with
  | none => none
  | some (nccl_unique_id, st') =>
    some ({ rank := env.rank % env.local_size,
            nranks := env.local_size,
            device_id := did,
            nccl_unique_id := nccl_unique_id }, st')

/-- `init_bagua_communicator`: rendezvous rooted at rank 0, then the global
communicator over all ranks. -/
def init_bagua_communicator (env : Env) (st : Store) (fresh : String)
    (device_id : Option ℕ) : Option (Comm × Store) :=
  let did := device_id.getD env.local_rank
  match gen_nccl_unique_id "bagua_global_comm" 0 env st fresh with
  | none => none
  | some (nccl_unique_id, st') =>
    some ({ rank := env.rank,
            nranks := env.world_size,
            device_id := did,
            nccl_unique_id := nccl_unique_id }, st')

/-- The backend handle `B.BaguaCommBackendPy(100, device_id=device_id)`. -/
structure Backend where
  schedule_channel_cap : ℕ
  device_id : ℕ
deriving DecidableEq

/-- The fields of `BaguaGlobalState` that this layer constructs (the CUDA
stream, hyperparameter record and autotune client are opaque external
handles and are omitted). -/
structure BaguaGlobalState where
  device_id : ℕ
  backend : Backend
  internode_communicator : Option Comm
  intranode_communicator : Comm
  global_communicator : Comm
deriving DecidableEq

/-- The module-level mutable global `_global_state`, passed explicitly. -/
structure ProcState where
  global_state : Option BaguaGlobalState
deriving DecidableEq

/-- `is_initialized`: whether `_global_state` has been assigned. -/
def is_initialized (s : ProcState) : Bool :=
  s.global_state.isSome

/-- Exceptions raised by the bootstrap path. -/
inductive Err
  | repeatedInit
  | valueError (method : String)
  | indexError
  | backendFailure
deriving DecidableEq

/-- Outcome of a bootstrap step: an exception propagated to the caller, an
indefinite block on a rendezvous `get`, or success. -/
inductive InitResult (α : Type)
  | raised (e : Err)
  | blocked
  | ok (a : α)
deriving DecidableEq

/-- Creation steps observable during bootstrap, in completion order. -/
inductive InitAction
  | createStore
  | createBackend
  | createComm (purpose : String)
deriving DecidableEq

/-- `BaguaGlobalState.__init__`: resolve the device id, construct the
backend handle (whose external constructor may fail, modelled by
`backendFails`), then build the inter-node, intra-node and global
communicators in that order, threading the rendezvous store. -/
def mkBaguaGlobalState (env : Env) (st : Store) (fresh : ℕ → String)
    (device_id : Option ℕ) (backendFails : Bool) :
    InitResult (BaguaGlobalState × Store) × List InitAction :=
  let did := device_id.getD env.local_rank
  if backendFails then
    (.raised .backendFailure, [])
  else
    match init_bagua_inter_communicator env 0 st (fresh 0) (some did) with
    | none => (.blocked, [.createBackend])
    | some (inter, st1) =>
      match init_bagua_intra_communicator env st1 (fresh 1) (some did) with
      | none => (.blocked, [.createBackend, .createComm "inter"])
      | some (intra, st2) =>
        match init_bagua_communicator env st2 (fresh 2) (some did) with
        | none =>
          (.blocked, [.createBackend, .createComm "inter", .createComm "intra"])
        | some (glob, _st3) =>
          (.ok ({ device_id := did,
                  backend := { schedule_channel_cap := 100, device_id := did },
                  internode_communicator := inter,
                  intranode_communicator := intra,
                  global_communicator := glob }, _st3),
           [.createBackend, .createComm "inter", .createComm "intra",
            .createComm "global"])

/-- Python's `s.split(sep)` for a non-empty separator, over char lists with
a structural fuel (fuel at least the length of the text). -/
def pySplitAux (sep : List Char) : ℕ → List Char → List Char → List (List Char)
  | _, [], acc => [acc.reverse]
  | 0, rest, acc => [acc.reverse ++ rest]
  | fuel + 1, c :: rest, acc =>
    if sep.isPrefixOf (c :: rest) then
      acc.reverse :: pySplitAux sep fuel (List.drop sep.length (c :: rest)) []
    else
      pySplitAux sep fuel rest (c :: acc)

/-- Python's `s.split(sep)` on strings (`init_method.split("://")`). -/
def pySplit (s sep : String) : List String :=
  (pySplitAux sep.data s.data.length s.data []).map fun cs => String.mk cs

/-- `metas[0]` of `init_method.split("://")`: the endpoint scheme. -/
def schemeOf (init_method : String) : String :=
  (pySplit init_method "://").headD ""

/-- Whether `metas[1]` exists (the file-store path after `"://"`). -/
def hasPathPart (init_method : String) : Bool :=
  ((pySplit init_method "://").get? 1).isSome

/-- `init_process_group`: reject a repeated initialization, validate the
scheme of `init_method`, create the rendezvous store, construct
`BaguaGlobalState`, and only on success assign `_global_state`.  The result
carries the outcome, the state of `_global_state` afterwards, and the list
of creations that completed. -/
def init_process_group (s : ProcState) (init_method : String) (env : Env)
    (st : Store) (fresh : ℕ → String) (device_id : Option ℕ)
    (backendFails : Bool) : InitResult Unit × ProcState × List InitAction :=
  if is_initialized s then
    (.raised .repeatedInit, s, [])
  else if ¬ (schemeOf init_method = "dist" ∨ schemeOf init_method = "file") then
    (.raised (.valueError init_method), s, [])
  else if schemeOf init_method = "file" ∧ ¬ hasPathPart init_method then
    (.raised .indexError, s, [])
  else
    match mkBaguaGlobalState env st fresh device_id backendFails with
    | (.raised e, acts) => (.raised e, s, .createStore :: acts)
    | (.blocked, acts) => (.blocked, s, .createStore :: acts)
    | (.ok (gs, _), acts) => (.ok (), ⟨some gs⟩, .createStore :: acts)

/-- The two device streams of a collective call: the caller's ambient
compute stream and the communicator's dedicated communication stream. -/
inductive StreamKind
  | compute
  | comm
deriving DecidableEq

/-- Device-side steps issued by a collective entry point, in issue order. -/
inductive Action
  | recordEvent (s : StreamKind)
  | waitEvent (s : StreamKind)
  | flattenOp (s : StreamKind)
  | commBroadcast (s : StreamKind) (root : ℕ)
  | commAllreduce (s : StreamKind)
  | divideByNranks (s : StreamKind) (n : ℕ)
  | copyBack (s : StreamKind)
  | deviceSynchronize
deriving DecidableEq

/-- `utils.flatten`: concatenate the tensors' contents in input order. -/
def flatten (tensors : List Tensor) : List ℚ :=
  List.flatten (tensors.map Tensor.data)

/-- `utils.unflatten`: slice a flat buffer back into pieces shaped like the
given tensors, at the same prefix offsets. -/
def unflatten : List ℚ → List Tensor → List (List ℚ)
  | _, [] => []
  | flat, t :: rest =>
    flat.take t.data.length :: unflatten (flat.drop t.data.length) rest

/-- Resolution of the `comm` argument: an explicit communicator, or the
global communicator of `_global_state` when `comm is None`. -/
def resolveComm (gstate : Option BaguaGlobalState) (comm : Option Comm) :
    Option Comm :=
  match comm with
  | some c => some c
  | none => gstate.map fun gs => gs.global_communicator

/-- `broadcast`: reject host tensors, resolve the communicator, then
record an event on the compute stream, make the communication stream wait
on it, issue the transport broadcast (modelled by `transport`, the
in-place effect of `comm.broadcast`) on the communication stream, and
synchronize the device.  An `error` result is returned before any device
action is issued. -/
def broadcast (gstate : Option BaguaGlobalState) (tensor : Tensor) (root : ℕ)
    (comm : Option Comm) (transport : List ℚ → List ℚ) :
    Except String (Tensor × List Action) :=
  if tensor.device = Device.cpu then
    .error "input tensor must be CUDA and dense"
  else
    match resolveComm gstate comm with
    | none => .error "no communicator available"
    | some _c =>
      .ok ({ tensor with data := transport tensor.data },
        [.recordEvent .compute, .waitEvent .comm, .commBroadcast .comm root,
         .deviceSynchronize])

/-- `broadcast_coalesced`: reject host tensors (all are checked first),
resolve the communicator, then on the communication stream flatten, issue
the transport broadcast on the flat buffer, and copy each unflattened
slice back over the original tensors in input order, before a full device
synchronize. -/
def broadcast_coalesced (gstate : Option BaguaGlobalState)
    (tensors : List Tensor) (root : ℕ) (comm : Option Comm)
    (transport : List ℚ → List ℚ) :
    Except String (List Tensor × List Action) :=
  if tensors.any (fun t => t.device == Device.cpu) then
    .error "input tensors must be CUDA and dense"
  else
    match resolveComm gstate comm with
    | none => .error "no communicator available"
    | some _c =>
      let coalesced := flatten tensors
      let synced := transport coalesced
      let outs := (tensors.zip (unflatten synced tensors)).map fun p =>
        { p.1 with data := p.2 }
      .ok (outs,
        [.recordEvent .compute, .waitEvent .comm, .flattenOp .comm,
         .commBroadcast .comm root, .copyBack .comm, .deviceSynchronize])

/-- `allreduce`: reject host tensors, resolve the communicator, then
record/wait, issue the transport reduction (modelled by `transport`, the
in-place effect of `comm.allreduce`) on the communication stream, divide
by `comm.nranks()` afterwards when `average` is set, and synchronize. -/
def allreduce (gstate : Option BaguaGlobalState) (tensor : Tensor)
    (comm : Option Comm) (average : Bool) (transport : List ℚ → List ℚ) :
    Except String (Tensor × List Action) :=
  if tensor.device = Device.cpu then
    .error "input tensor must be CUDA and dense"
  else
    match resolveComm gstate comm with
    | none => .error "no communicator available"
    | some c =>
      let reduced := transport tensor.data
      let result :=
        if average then reduced.map fun x => x / (c.nranks : ℚ) else reduced
      .ok ({ tensor with data := result },
        [.recordEvent .compute, .waitEvent .comm, .commAllreduce .comm]
          ++ (if average then [.divideByNranks .comm c.nranks] else [])
          ++ [.deviceSynchronize])

/-- `allreduce_coalesced`: like `allreduce`, over the flattened buffer,
followed by the scatter of unflattened slices back over the inputs. -/
def allreduce_coalesced (gstate : Option BaguaGlobalState)
    (tensors : List Tensor) (comm : Option Comm) (average : Bool)
    (transport : List ℚ → List ℚ) :
    Except String (List Tensor × List Action) :=
  if tensors.any (fun t => t.device == Device.cpu) then
    .error "input tensors must be CUDA and dense"
  else
    match resolveComm gstate comm with
    | none => .error "no communicator available"
    | some c =>
      let coalesced := flatten tensors
      let reduced := transport coalesced
      let final :=
        if average then reduced.map fun x => x / (c.nranks : ℚ) else reduced
      let outs := (tensors.zip (unflatten final tensors)).map fun p =>
        { p.1 with data := p.2 }
      .ok (outs,
        [.recordEvent .compute, .waitEvent .comm, .flattenOp .comm,
         .commAllreduce .comm]
          ++ (if average then [.divideByNranks .comm c.nranks] else [])
          ++ [.copyBack .comm, .deviceSynchronize])

/-- Element-wise sum of two buffers. -/
def addVec (a b : List ℚ) : List ℚ :=
  List.zipWith (fun x y => x + y) a b

/-- Element-wise sum of the buffers of all participants, each of length
`m`: the effect of a sum-reducing transport on buffers of length `m`. -/
def sumVecs (m : ℕ) : List (List ℚ) → List ℚ
  | [] => List.replicate m 0
  | b :: rest => addVec b (sumVecs m rest)

end Bagua

namespace Bagua

/-! ### Basic lemmas about the store, buffers and the coalescer -/

theorem get?_set_self (st : Store) (k v : String) :
    (st.set k v).get? k = some v := by
  simp [Store.set, Store.get?, lookupKV]

theorem getD_replicate_zero : ∀ m i : ℕ, (List.replicate m (0 : ℚ)).getD i 0 = 0
  | 0, _ => by simp
  | _ + 1, 0 => by simp [List.replicate]
  | m + 1, i + 1 => by simp [List.replicate, getD_replicate_zero m i]

theorem getD_addVec (a : List ℚ) : ∀ (b : List ℚ) (i : ℕ),
    i < a.length → i < b.length →
    (addVec a b).getD i 0 = a.getD i 0 + b.getD i 0 := by
  induction a with
  | nil => intro b i ha _; simp at ha
  | cons x xs ih =>
    intro b i ha hb
    cases b with
    | nil => simp at hb
    | cons y ys =>
      cases i with
      | zero => simp [addVec]
      | succ j =>
        simp only [addVec, List.zipWith_cons_cons, List.getD_cons_succ]
        exact ih ys j (by simpa using ha) (by simpa using hb)

theorem sumVecs_length (m : ℕ) : ∀ bufs : List (List ℚ),
    (∀ b ∈ bufs, b.length = m) → (sumVecs m bufs).length = m := by
  intro bufs
  induction bufs with
  | nil => intro _; simp [sumVecs]
  | cons b rest ih =>
    intro h
    have hb : b.length = m := h b (by simp)
    have hr := ih fun x hx => h x (by simp [hx])
    simp [sumVecs, addVec, List.length_zipWith, hb, hr]

theorem sumVecs_getD (m : ℕ) : ∀ (bufs : List (List ℚ)) (i : ℕ), i < m →
    (∀ b ∈ bufs, b.length = m) →
    (sumVecs m bufs).getD i 0 = (bufs.map fun b => b.getD i 0).sum := by
  intro bufs
  induction bufs with
  | nil => intro i hi _; simp [sumVecs, getD_replicate_zero m i]
  | cons b rest ih =>
    intro i hi h
    have hb : b.length = m := h b (by simp)
    have hrest : ∀ x ∈ rest, x.length = m := fun x hx => h x (by simp [hx])
    have hrl : (sumVecs m rest).length = m := sumVecs_length m rest hrest
    rw [sumVecs, getD_addVec b (sumVecs m rest) i (by simp [hb, hi])
      (by simp [hrl, hi]), ih i hi hrest]
    simp

theorem getD_map_div (c : ℚ) : ∀ (l : List ℚ) (i : ℕ), i < l.length →
    (l.map fun x => x / c).getD i 0 = l.getD i 0 / c := by
  intro l
  induction l with
  | nil => intro i hi; simp at hi
  | cons x xs ih =>
    intro i hi
    cases i with
    | zero => simp
    | succ j => simpa using ih j (by simpa using hi)

theorem flatten_cons (t : Tensor) (rest : List Tensor) :
    flatten (t :: rest) = t.data ++ flatten rest := by
  simp [flatten]

theorem unflatten_length : ∀ (flat : List ℚ) (ts : List Tensor),
    (unflatten flat ts).length = ts.length := by
  intro flat ts
  induction ts generalizing flat with
  | nil => simp [unflatten]
  | cons t rest ih => simp [unflatten, ih]

theorem unflatten_flatten (ts : List Tensor) :
    unflatten (flatten ts) ts = ts.map Tensor.data := by
  induction ts with
  | nil => simp [unflatten, flatten]
  | cons t rest ih =>
    rw [flatten_cons, unflatten, List.take_left, List.drop_left, ih]
    simp

theorem flatten_unflatten : ∀ (flat : List ℚ) (ts : List Tensor),
    flat.length = (flatten ts).length →
    List.flatten (unflatten flat ts) = flat := by
  intro flat ts
  induction ts generalizing flat with
  | nil =>
    intro h
    simp [flatten] at h
    simp [unflatten, h]
  | cons t rest ih =>
    intro h
    rw [flatten_cons] at h
    simp only [List.length_append] at h
    have hk : t.data.length ≤ flat.length := by omega
    rw [unflatten, List.flatten_cons,
      ih (flat.drop t.data.length) (by simp; omega)]
    exact List.take_append_drop _ flat

theorem scatter_map_data : ∀ (ts : List Tensor) (us : List (List ℚ)),
    us.length = ts.length →
    ((ts.zip us).map fun p => { p.1 with data := p.2 }).map Tensor.data = us := by
  intro ts
  induction ts with
  | nil =>
    intro us h
    cases us with
    | nil => simp
    | cons u us' => simp at h
  | cons t ts' ih =>
    intro us h
    cases us with
    | nil => simp at h
    | cons u us' => simp [ih us' (by simpa using h)]

theorem scatter_map_device : ∀ (ts : List Tensor) (us : List (List ℚ)),
    us.length = ts.length →
    ((ts.zip us).map fun p => { p.1 with data := p.2 }).map Tensor.device
      = ts.map Tensor.device := by
  intro ts
  induction ts with
  | nil => intro us _; simp
  | cons t ts' ih =>
    intro us h
    cases us with
    | nil => simp at h
    | cons u us' => simp [ih us' (by simpa using h)]

theorem any_cpu_eq_false (ts : List Tensor)
    (h : ∀ t ∈ ts, t.device ≠ Device.cpu) :
    (ts.any fun t => t.device == Device.cpu) = false := by
  rw [List.any_eq_false]
  intro t ht
  simpa using h t ht

/-! ### C3: the rendezvous protocol of `gen_nccl_unique_id` -/

/-- C3: exactly the root rank generates a fresh identifier and puts it
under the key derived from the purpose and root; every other rank gets
that same key, and all ranks return the identical identifier string. -/
theorem gen_nccl_unique_id_rendezvous (ct : String) (root : ℕ) (st : Store)
    (fresh fresh2 : String) (envL envF : Env)
    (hL : envL.rank = root) (hF : envF.rank ≠ root) :
    ncclKey ct root = ct ++ "-" ++ toString root ++ "-unique_id" ∧
    ∃ st', gen_nccl_unique_id ct root envL st fresh = some (fresh, st') ∧
      st'.get? (ncclKey ct root) = some fresh ∧
      gen_nccl_unique_id ct root envF st' fresh2 = some (fresh, st') := by
  refine ⟨rfl, st.set (ncclKey ct root) fresh, ?_, ?_, ?_⟩
  · simp [gen_nccl_unique_id, hL]
  · exact get?_set_self st _ fresh
  · simp [gen_nccl_unique_id, hF, get?_set_self]

/-- Witness for C3: a leader at rank 0 and a follower at rank 1 of a
4-rank world round-trip the identifier through the store. -/
theorem gen_nccl_unique_id_rendezvous_witness :
    ncclKey "bagua_global_comm" 0 = "bagua_global_comm-0-unique_id" ∧
    ∃ st', gen_nccl_unique_id "bagua_global_comm" 0 ⟨0, 4, 0, 2⟩ ⟨[]⟩ "uid"
        = some ("uid", st') ∧
      st'.get? (ncclKey "bagua_global_comm" 0) = some "uid" ∧
      gen_nccl_unique_id "bagua_global_comm" 0 ⟨1, 4, 1, 2⟩ st' "other"
        = some ("uid", st') :=
  gen_nccl_unique_id_rendezvous "bagua_global_comm" 0 ⟨[]⟩ "uid" "other"
    ⟨0, 4, 0, 2⟩ ⟨1, 4, 1, 2⟩ rfl (by decide)

/-! ### C2: inter-node communicator membership -/

/-- C2: with leader offset 0, the inter-node bootstrap returns an absent
communicator exactly for the ranks whose `rank % local_size` is nonzero,
and otherwise a communicator with rank `rank / local_size` and size
`world_size / local_size` (provided the rendezvous can complete: the rank
is the leader, or the identifier is already published). -/
theorem init_inter_communicator_membership (env : Env) (st : Store)
    (fresh : String) (did : Option ℕ)
    (hkey : env.rank = 0 ∨ (st.get? (ncclKey "bagua_inter_comm" 0)).isSome) :
    ∃ res st',
      init_bagua_inter_communicator env 0 st fresh did = some (res, st') ∧
      (res = none ↔ env.rank % env.local_size ≠ 0) ∧
      ∀ c, res = some c →
        c.rank = env.rank / env.local_size ∧
        c.nranks = env.world_size / env.local_size := by
  by_cases h0 : env.rank = 0
  · refine ⟨some { rank := env.rank / env.local_size,
                   nranks := env.world_size / env.local_size,
                   device_id := did.getD env.local_rank,
                   nccl_unique_id := fresh },
      st.set (ncclKey "bagua_inter_comm" 0) fresh, ?_, ?_, ?_⟩
    · simp [init_bagua_inter_communicator, gen_nccl_unique_id, h0]
    · simp [h0]
    · intro c hc
      cases hc
      exact ⟨rfl, rfl⟩
  · have hsome := hkey.resolve_left h0
    obtain ⟨v, hv⟩ := Option.isSome_iff_exists.mp hsome
    by_cases hm : env.rank % env.local_size = 0
    · refine ⟨some { rank := env.rank / env.local_size,
                     nranks := env.world_size / env.local_size,
                     device_id := did.getD env.local_rank,
                     nccl_unique_id := v }, st, ?_, ?_, ?_⟩
      · simp [init_bagua_inter_communicator, gen_nccl_unique_id, h0, hv, hm]
      · simp [hm]
      · intro c hc
        cases hc
        exact ⟨rfl, rfl⟩
    · refine ⟨none, st, ?_, ?_, ?_⟩
      · simp [init_bagua_inter_communicator, gen_nccl_unique_id, h0, hv, hm]
      · simp [hm]
      · intro c hc
        simp at hc

/-- Witness for C2: the 4-rank, local-size-2 scenario; ranks 0 and 2 are
members (with inter ranks 0 and 1 over a 2-member group), ranks 1 and 3
observe an absent communicator. -/
theorem init_inter_communicator_membership_witness :
    (∃ res st',
      init_bagua_inter_communicator ⟨0, 4, 0, 2⟩ 0 ⟨[]⟩ "u" none
        = some (res, st') ∧
      (res = none ↔ (0 : ℕ) % 2 ≠ 0) ∧
      ∀ c, res = some c → c.rank = 0 / 2 ∧ c.nranks = 4 / 2) ∧
    (∃ res st',
      init_bagua_inter_communicator ⟨1, 4, 1, 2⟩ 0
          ((Store.mk []).set (ncclKey "bagua_inter_comm" 0) "u") "u" none
        = some (res, st') ∧
      (res = none ↔ (1 : ℕ) % 2 ≠ 0) ∧
      ∀ c, res = some c → c.rank = 1 / 2 ∧ c.nranks = 4 / 2) ∧
    (∃ res st',
      init_bagua_inter_communicator ⟨2, 4, 0, 2⟩ 0
          ((Store.mk []).set (ncclKey "bagua_inter_comm" 0) "u") "u" none
        = some (res, st') ∧
      (res = none ↔ (2 : ℕ) % 2 ≠ 0) ∧
      ∀ c, res = some c → c.rank = 2 / 2 ∧ c.nranks = 4 / 2) ∧
    (∃ res st',
      init_bagua_inter_communicator ⟨3, 4, 1, 2⟩ 0
          ((Store.mk []).set (ncclKey "bagua_inter_comm" 0) "u") "u" none
        = some (res, st') ∧
      (res = none ↔ (3 : ℕ) % 2 ≠ 0) ∧
      ∀ c, res = some c → c.rank = 3 / 2 ∧ c.nranks = 4 / 2) :=
  ⟨init_inter_communicator_membership ⟨0, 4, 0, 2⟩ ⟨[]⟩ "u" none (Or.inl rfl),
   init_inter_communicator_membership ⟨1, 4, 1, 2⟩ _ "u" none (Or.inr (by decide)),
   init_inter_communicator_membership ⟨2, 4, 0, 2⟩ _ "u" none (Or.inr (by decide)),
   init_inter_communicator_membership ⟨3, 4, 1, 2⟩ _ "u" none (Or.inr (by decide))⟩

/-! ### C10: rendezvous before the membership test -/

/-- C10: every non-leader rank (including those that will receive an
absent inter-node communicator) blocks on the rendezvous get while the
identifier is unpublished, and returns -- evaluating its membership only
then -- once the leader has published it. -/
theorem init_inter_communicator_rendezvous_first (env : Env) (st : Store)
    (fresh : String) (did : Option ℕ) (hr : env.rank ≠ 0) :
    (st.get? (ncclKey "bagua_inter_comm" 0) = none →
      init_bagua_inter_communicator env 0 st fresh did = none) ∧
    (∀ v, st.get? (ncclKey "bagua_inter_comm" 0) = some v →
      ∃ res, init_bagua_inter_communicator env 0 st fresh did
          = some (res, st) ∧
        (env.rank % env.local_size ≠ 0 → res = none)) := by
  constructor
  · intro hnone
    simp [init_bagua_inter_communicator, gen_nccl_unique_id, hr, hnone]
  · intro v hv
    by_cases hm : env.rank % env.local_size = 0
    · refine ⟨some { rank := env.rank / env.local_size,
                     nranks := env.world_size / env.local_size,
                     device_id := did.getD env.local_rank,
                     nccl_unique_id := v }, ?_, ?_⟩
      · simp [init_bagua_inter_communicator, gen_nccl_unique_id, hr, hv, hm]
      · intro hne
        exact absurd hm hne
    · exact ⟨none,
        by simp [init_bagua_inter_communicator, gen_nccl_unique_id, hr, hv, hm],
        fun _ => rfl⟩

/-- Witness for C10: rank 1 (a rank that ends with an absent inter-node
communicator) blocks on an empty store and returns `none` once the
identifier is published. -/
theorem init_inter_communicator_rendezvous_first_witness :
    init_bagua_inter_communicator ⟨1, 4, 1, 2⟩ 0 ⟨[]⟩ "u" none = none ∧
    ∃ res, init_bagua_inter_communicator ⟨1, 4, 1, 2⟩ 0
        ((Store.mk []).set (ncclKey "bagua_inter_comm" 0) "uid") "u" none
      = some (res, (Store.mk []).set (ncclKey "bagua_inter_comm" 0) "uid") ∧
      ((1 : ℕ) % 2 ≠ 0 → res = none) :=
  ⟨(init_inter_communicator_rendezvous_first ⟨1, 4, 1, 2⟩ ⟨[]⟩ "u" none
      (by decide)).1 (by decide),
   (init_inter_communicator_rendezvous_first ⟨1, 4, 1, 2⟩
      ((Store.mk []).set (ncclKey "bagua_inter_comm" 0) "uid") "u" none
      (by decide)).2 "uid" (by decide)⟩

/-! ### C5: stream discipline of the collective entry points -/

/-- C5: on device-resident inputs, every collective entry point issues
exactly this sequence: an event recorded on the ambient compute stream, a
wait for it on the communicator's stream, the collective (with flatten,
averaging and scatter copies) on the communicator's stream, and a final
full device synchronize before returning. -/
theorem collectives_stream_discipline (gstate : Option BaguaGlobalState)
    (t : Tensor) (ht : t.device ≠ Device.cpu)
    (ts : List Tensor) (hts : ∀ u ∈ ts, u.device ≠ Device.cpu)
    (root : ℕ) (c : Comm) (average : Bool) (tr : List ℚ → List ℚ) :
    (∃ out, broadcast gstate t root (some c) tr =
      .ok (out, [.recordEvent .compute, .waitEvent .comm,
        .commBroadcast .comm root, .deviceSynchronize])) ∧
    (∃ outs, broadcast_coalesced gstate ts root (some c) tr =
      .ok (outs, [.recordEvent .compute, .waitEvent .comm, .flattenOp .comm,
        .commBroadcast .comm root, .copyBack .comm, .deviceSynchronize])) ∧
    (∃ out, allreduce gstate t (some c) average tr =
      .ok (out, [.recordEvent .compute, .waitEvent .comm, .commAllreduce .comm]
        ++ (if average then [.divideByNranks .comm c.nranks] else [])
        ++ [.deviceSynchronize])) ∧
    (∃ outs, allreduce_coalesced gstate ts (some c) average tr =
      .ok (outs, [.recordEvent .compute, .waitEvent .comm, .flattenOp .comm,
        .commAllreduce .comm]
        ++ (if average then [.divideByNranks .comm c.nranks] else [])
        ++ [.copyBack .comm, .deviceSynchronize])) := by
  have hany := any_cpu_eq_false ts hts
  refine ⟨⟨{ t with data := tr t.data }, ?_⟩,
    ⟨(ts.zip (unflatten (tr (flatten ts)) ts)).map fun p =>
      { p.1 with data := p.2 }, ?_⟩,
    ⟨{ t with data := if average then (tr t.data).map fun x => x / (c.nranks : ℚ)
        else tr t.data }, ?_⟩,
    ⟨(ts.zip (unflatten (if average
          then (tr (flatten ts)).map fun x => x / (c.nranks : ℚ)
          else tr (flatten ts)) ts)).map fun p =>
      { p.1 with data := p.2 }, ?_⟩⟩ <;>
    simp [broadcast, broadcast_coalesced, allreduce, allreduce_coalesced,
      resolveComm, ht, hany]

/-- Witness for C5: a concrete CUDA tensor and tensor list, with
`average = true`, produce exactly the expected traces. -/
theorem collectives_stream_discipline_witness :
    (∃ out, broadcast none ⟨Device.cuda 0, [1]⟩ 0 (some ⟨0, 4, 0, "u"⟩)
        (fun l => l) =
      .ok (out, [.recordEvent .compute, .waitEvent .comm,
        .commBroadcast .comm 0, .deviceSynchronize])) ∧
    (∃ outs, broadcast_coalesced none [⟨Device.cuda 0, [1, 2]⟩] 0
        (some ⟨0, 4, 0, "u"⟩) (fun l => l) =
      .ok (outs, [.recordEvent .compute, .waitEvent .comm, .flattenOp .comm,
        .commBroadcast .comm 0, .copyBack .comm, .deviceSynchronize])) ∧
    (∃ out, allreduce none ⟨Device.cuda 0, [1]⟩ (some ⟨0, 4, 0, "u"⟩) true
        (fun l => l) =
      .ok (out, [.recordEvent .compute, .waitEvent .comm, .commAllreduce .comm,
        .divideByNranks .comm 4, .deviceSynchronize])) ∧
    (∃ outs, allreduce_coalesced none [⟨Device.cuda 0, [1, 2]⟩]
        (some ⟨0, 4, 0, "u"⟩) true (fun l => l) =
      .ok (outs, [.recordEvent .compute, .waitEvent .comm, .flattenOp .comm,
        .commAllreduce .comm, .divideByNranks .comm 4, .copyBack .comm,
        .deviceSynchronize])) :=
  collectives_stream_discipline none ⟨Device.cuda 0, [1]⟩ (by decide)
    [⟨Device.cuda 0, [1, 2]⟩] (by decide) 0 ⟨0, 4, 0, "u"⟩ true (fun l => l)

/-! ### C8: host-resident tensors are rejected synchronously -/

/-- C8: a CPU tensor passed to any collective entry point yields the
descriptive assertion failure; the error is returned before any device
action is recorded (the ok-trace is never produced), and in the coalesced
forms the check covers every tensor of the list. -/
theorem collectives_reject_cpu_tensors (gstate : Option BaguaGlobalState)
    (t : Tensor) (ht : t.device = Device.cpu)
    (ts : List Tensor) (hts : ∃ u ∈ ts, u.device = Device.cpu)
    (root : ℕ) (comm : Option Comm) (average : Bool)
    (tr : List ℚ → List ℚ) :
    broadcast gstate t root comm tr
      = .error "input tensor must be CUDA and dense" ∧
    allreduce gstate t comm average tr
      = .error "input tensor must be CUDA and dense" ∧
    broadcast_coalesced gstate ts root comm tr
      = .error "input tensors must be CUDA and dense" ∧
    allreduce_coalesced gstate ts comm average tr
      = .error "input tensors must be CUDA and dense" := by
  have hany : (ts.any fun u => u.device == Device.cpu) = true := by
    rcases hts with ⟨u, hu, hcpu⟩
    exact List.any_eq_true.mpr ⟨u, hu, by simp [hcpu]⟩
  exact ⟨by simp [broadcast, ht], by simp [allreduce, ht],
    by simp [broadcast_coalesced, hany], by simp [allreduce_coalesced, hany]⟩

/-- Witness for C8: a host tensor, and a list whose second tensor is a
host tensor, are rejected by all four entry points. -/
theorem collectives_reject_cpu_tensors_witness :
    broadcast none ⟨Device.cpu, [1]⟩ 0 (some ⟨0, 4, 0, "u"⟩) (fun l => l)
      = .error "input tensor must be CUDA and dense" ∧
    allreduce none ⟨Device.cpu, [1]⟩ (some ⟨0, 4, 0, "u"⟩) true (fun l => l)
      = .error "input tensor must be CUDA and dense" ∧
    broadcast_coalesced none [⟨Device.cuda 0, [1]⟩, ⟨Device.cpu, [2]⟩] 0
        (some ⟨0, 4, 0, "u"⟩) (fun l => l)
      = .error "input tensors must be CUDA and dense" ∧
    allreduce_coalesced none [⟨Device.cuda 0, [1]⟩, ⟨Device.cpu, [2]⟩]
        (some ⟨0, 4, 0, "u"⟩) true (fun l => l)
      = .error "input tensors must be CUDA and dense" :=
  collectives_reject_cpu_tensors none ⟨Device.cpu, [1]⟩ rfl
    [⟨Device.cuda 0, [1]⟩, ⟨Device.cpu, [2]⟩]
    ⟨⟨Device.cpu, [2]⟩, by decide, rfl⟩ 0 (some ⟨0, 4, 0, "u"⟩) true
    (fun l => l)

/-! ### C6: repeated initialization -/

/-- C6: on an already-initialized process, `init_process_group` raises the
repeated-initialization error with no store, global state or communicator
created (empty creation trace) and `_global_state` exactly as before. -/
theorem init_process_group_repeated_rejected (s : ProcState)
    (h : is_initialized s = true) (m : String) (env : Env) (st : Store)
    (fresh : ℕ → String) (d : Option ℕ) (bf : Bool) :
    init_process_group s m env st fresh d bf
      = (.raised .repeatedInit, s, []) := by
  simp [init_process_group, h]

/-- Witness for C6: a second call on a concrete initialized state is
rejected and the state survives unchanged. -/
theorem init_process_group_repeated_rejected_witness :
    init_process_group
        ⟨some ⟨0, ⟨100, 0⟩, none, ⟨0, 1, 0, "u"⟩, ⟨0, 1, 0, "u"⟩⟩⟩
        "dist://" ⟨0, 1, 0, 1⟩ ⟨[]⟩ (fun _ => "u") none false
      = (.raised .repeatedInit,
         ⟨some ⟨0, ⟨100, 0⟩, none, ⟨0, 1, 0, "u"⟩, ⟨0, 1, 0, "u"⟩⟩⟩, []) :=
  init_process_group_repeated_rejected
    ⟨some ⟨0, ⟨100, 0⟩, none, ⟨0, 1, 0, "u"⟩, ⟨0, 1, 0, "u"⟩⟩⟩ rfl
    "dist://" ⟨0, 1, 0, 1⟩ ⟨[]⟩ (fun _ => "u") none false

/-! ### C9: what a raising `init_process_group` leaves behind -/

/-- C9 counterexample: a raising call (repeated initialization is one of
the reasons the claim lists) can leave `is_initialized` returning true
afterwards, not false. -/
theorem init_raise_not_uninitialized_counterexample :
    (init_process_group
        ⟨some ⟨0, ⟨100, 0⟩, none, ⟨0, 2, 0, "u"⟩, ⟨0, 2, 0, "u"⟩⟩⟩
        "dist://" ⟨0, 2, 0, 1⟩ ⟨[]⟩ (fun _ => "u") none false).1
      = .raised .repeatedInit ∧
    is_initialized
      (init_process_group
        ⟨some ⟨0, ⟨100, 0⟩, none, ⟨0, 2, 0, "u"⟩, ⟨0, 2, 0, "u"⟩⟩⟩
        "dist://" ⟨0, 2, 0, 1⟩ ⟨[]⟩ (fun _ => "u") none false).2.1
      = true := by
  decide

/-- C9 amended: whenever `init_process_group` raises (repeated
initialization, illegal scheme, missing file path, or a global-state
construction failure), `_global_state` is left exactly as it was; in
particular a process that was uninitialized before the failing call is
still uninitialized afterwards and may retry. -/
theorem init_raise_state_unchanged (s : ProcState) (m : String) (env : Env)
    (st : Store) (fresh : ℕ → String) (d : Option ℕ) (bf : Bool) (e : Err)
    (h : (init_process_group s m env st fresh d bf).1 = .raised e) :
    (init_process_group s m env st fresh d bf).2.1 = s ∧
    (is_initialized s = false →
      is_initialized (init_process_group s m env st fresh d bf).2.1
        = false) := by
  have hcases : (init_process_group s m env st fresh d bf).1 = .ok () ∨
      (init_process_group s m env st fresh d bf).2.1 = s := by
    unfold init_process_group
    split
    · exact Or.inr rfl
    · split
      · exact Or.inr rfl
      · split
        · exact Or.inr rfl
        · split
          · exact Or.inr rfl
          · exact Or.inr rfl
          · exact Or.inl rfl
  rcases hcases with hok | hs
  · rw [hok] at h
    exact absurd h (by simp)
  · exact ⟨hs, fun hfalse => by rw [hs]; exact hfalse⟩

/-- Witness for C9's amended statement: the concrete raising call of the
counterexample leaves the state unchanged. -/
theorem init_raise_state_unchanged_witness :
    (init_process_group
        ⟨some ⟨0, ⟨100, 0⟩, none, ⟨0, 2, 0, "u"⟩, ⟨0, 2, 0, "u"⟩⟩⟩
        "dist://" ⟨0, 2, 0, 1⟩ ⟨[]⟩ (fun _ => "u") none false).2.1
      = ⟨some ⟨0, ⟨100, 0⟩, none, ⟨0, 2, 0, "u"⟩, ⟨0, 2, 0, "u"⟩⟩⟩ ∧
    (is_initialized
        ⟨some ⟨0, ⟨100, 0⟩, none, ⟨0, 2, 0, "u"⟩, ⟨0, 2, 0, "u"⟩⟩⟩ = false →
      is_initialized
        (init_process_group
          ⟨some ⟨0, ⟨100, 0⟩, none, ⟨0, 2, 0, "u"⟩, ⟨0, 2, 0, "u"⟩⟩⟩
          "dist://" ⟨0, 2, 0, 1⟩ ⟨[]⟩ (fun _ => "u") none false).2.1
        = false) :=
  init_raise_state_unchanged
    ⟨some ⟨0, ⟨100, 0⟩, none, ⟨0, 2, 0, "u"⟩, ⟨0, 2, 0, "u"⟩⟩⟩
    "dist://" ⟨0, 2, 0, 1⟩ ⟨[]⟩ (fun _ => "u") none false .repeatedInit
    (by decide)

/-! ### C7: indivisible world size -/

/-- C7 counterexample: with world size 5 and local size 2 (not divisible),
initialization reports no configuration error; it returns ok and builds
the store, the backend and all three communicators. -/
theorem init_indivisible_no_error_counterexample :
    ¬ (2 ∣ 5) ∧
    (init_process_group ⟨none⟩ "dist://" ⟨0, 5, 0, 2⟩ ⟨[]⟩
        (fun _ => "u") none false).1 = .ok () ∧
    (init_process_group ⟨none⟩ "dist://" ⟨0, 5, 0, 2⟩ ⟨[]⟩
        (fun _ => "u") none false).2.2
      = [.createStore, .createBackend, .createComm "inter",
         .createComm "intra", .createComm "global"] := by
  decide

/-- C7 amended: `init_process_group` performs no divisibility check; when
`world_size` is not divisible by `local_size` it proceeds (here shown on
the node-leader rank 0, which generates all three identifiers itself) and
builds all three communicators, the inter-node one sized by floor
division. -/
theorem init_indivisible_world_proceeds (s : ProcState)
    (hs : is_initialized s = false) (env : Env) (st : Store)
    (fresh : ℕ → String) (hrank : env.rank = 0)
    (_hdvd : ¬ (env.local_size ∣ env.world_size)) :
    ∃ gs : BaguaGlobalState,
      init_process_group s "dist://" env st fresh none false
        = (.ok (), ⟨some gs⟩,
           [.createStore, .createBackend, .createComm "inter",
            .createComm "intra", .createComm "global"]) ∧
      (∃ c, gs.internode_communicator = some c ∧
        c.nranks = env.world_size / env.local_size) ∧
      gs.intranode_communicator.nranks = env.local_size ∧
      gs.global_communicator.nranks = env.world_size := by
  obtain ⟨gsopt⟩ := s
  cases gsopt with
  | some gs => simp [is_initialized] at hs
  | none =>
    have hscheme : schemeOf "dist://" = "dist" := by decide
    refine ⟨{ device_id := env.local_rank,
              backend := { schedule_channel_cap := 100,
                           device_id := env.local_rank },
              internode_communicator :=
                some { rank := 0, nranks := env.world_size / env.local_size,
                       device_id := env.local_rank, nccl_unique_id := fresh 0 },
              intranode_communicator :=
                { rank := 0, nranks := env.local_size,
                  device_id := env.local_rank, nccl_unique_id := fresh 1 },
              global_communicator :=
                { rank := 0, nranks := env.world_size,
                  device_id := env.local_rank, nccl_unique_id := fresh 2 } },
      ?_, ⟨_, rfl, rfl⟩, rfl, rfl⟩
    simp [init_process_group, is_initialized, hscheme, mkBaguaGlobalState,
      init_bagua_inter_communicator, init_bagua_intra_communicator,
      init_bagua_communicator, gen_nccl_unique_id, hrank]

/-- Witness for C7's amended statement: the 5-rank, local-size-2
configuration from the counterexample. -/
theorem init_indivisible_world_proceeds_witness :
    ∃ gs : BaguaGlobalState,
      init_process_group ⟨none⟩ "dist://" ⟨0, 5, 0, 2⟩ ⟨[]⟩
          (fun _ => "u") none false
        = (.ok (), ⟨some gs⟩,
           [.createStore, .createBackend, .createComm "inter",
            .createComm "intra", .createComm "global"]) ∧
      (∃ c, gs.internode_communicator = some c ∧ c.nranks = 5 / 2) ∧
      gs.intranode_communicator.nranks = 2 ∧
      gs.global_communicator.nranks = 5 :=
  init_indivisible_world_proceeds ⟨none⟩ rfl ⟨0, 5, 0, 2⟩ ⟨[]⟩
    (fun _ => "u") rfl (by decide)

/-! ### C1: all-reduce value correctness under a sum-reducing transport -/

theorem final_buf_length (m : ℕ) (bufs : List (List ℚ))
    (hm : ∀ b ∈ bufs, b.length = m) (n : ℕ) (average : Bool) :
    (if average then (sumVecs m bufs).map fun x => x / (n : ℚ)
     else sumVecs m bufs).length = m := by
  cases average <;> simp [sumVecs_length m bufs hm]

theorem final_buf_getD (m : ℕ) (bufs : List (List ℚ))
    (hm : ∀ b ∈ bufs, b.length = m) (n : ℕ) (average : Bool) (i : ℕ)
    (hi : i < m) :
    (if average then (sumVecs m bufs).map fun x => x / (n : ℚ)
     else sumVecs m bufs).getD i 0
      = (if average then (bufs.map fun b => b.getD i 0).sum / (n : ℚ)
         else (bufs.map fun b => b.getD i 0).sum) := by
  cases average with
  | false => simpa using sumVecs_getD m bufs i hi hm
  | true =>
    simp only [if_pos]
    rw [getD_map_div (n : ℚ) (sumVecs m bufs) i
        (by rw [sumVecs_length m bufs hm]; exact hi),
      sumVecs_getD m bufs i hi hm]

/-- C1: with a transport that replaces the buffer by the element-wise sum
of all participants' pre-call buffers, `allreduce` with `average = false`
ends with exactly that sum in each participant's buffer, and with
`average = true` each element is that sum divided by `comm.nranks()`, the
division being issued only after the reduction; the same holds
element-wise for `allreduce_coalesced` over the flattened buffer; and
`comm = None` resolves to the global communicator. -/
theorem allreduce_sum_then_average :
    (∀ (gstate : Option BaguaGlobalState) (m : ℕ) (bufs : List (List ℚ)),
      (∀ b ∈ bufs, b.length = m) →
      ∀ c : Comm, c.nranks = bufs.length →
      ∀ (average : Bool) (r : ℕ), r < bufs.length → ∀ dev : ℕ,
      ∃ out, allreduce gstate ⟨Device.cuda dev, bufs.getD r []⟩ (some c)
          average (fun _ => sumVecs m bufs)
        = .ok (out,
            [.recordEvent .compute, .waitEvent .comm, .commAllreduce .comm]
              ++ (if average then [.divideByNranks .comm c.nranks] else [])
              ++ [.deviceSynchronize]) ∧
        out.data.length = m ∧
        ∀ i, i < m → out.data.getD i 0
          = (if average
             then (bufs.map fun b => b.getD i 0).sum / (bufs.length : ℚ)
             else (bufs.map fun b => b.getD i 0).sum)) ∧
    (∀ (gstate : Option BaguaGlobalState) (M : ℕ) (fbufs : List (List ℚ)),
      (∀ b ∈ fbufs, b.length = M) →
      ∀ ts : List Tensor, (∀ u ∈ ts, u.device ≠ Device.cpu) →
      (flatten ts).length = M →
      ∀ c : Comm, c.nranks = fbufs.length →
      ∀ average : Bool,
      ∃ outs acts,
        allreduce_coalesced gstate ts (some c) average
            (fun _ => sumVecs M fbufs)
          = .ok (outs, acts) ∧
        (List.flatten (outs.map Tensor.data)).length = M ∧
        ∀ i, i < M → (List.flatten (outs.map Tensor.data)).getD i 0
          = (if average
             then (fbufs.map fun b => b.getD i 0).sum / (fbufs.length : ℚ)
             else (fbufs.map fun b => b.getD i 0).sum)) ∧
    (∀ gs : BaguaGlobalState,
      resolveComm (some gs) none = some gs.global_communicator) := by
  refine ⟨?_, ?_, fun gs => rfl⟩
  · intro gstate m bufs hm c hc average r hr dev
    refine ⟨⟨Device.cuda dev,
      if average then (sumVecs m bufs).map fun x => x / (c.nranks : ℚ)
      else sumVecs m bufs⟩, ?_, ?_, ?_⟩
    · simp [allreduce, resolveComm]
    · exact final_buf_length m bufs hm c.nranks average
    · intro i hi
      show (if average then (sumVecs m bufs).map fun x => x / (c.nranks : ℚ)
        else sumVecs m bufs).getD i 0 = _
      rw [hc]
      exact final_buf_getD m bufs hm bufs.length average i hi
  · intro gstate M fbufs hM ts hts hflat c hc average
    have hany := any_cpu_eq_false ts hts
    have hfl : (if average
        then (sumVecs M fbufs).map fun x => x / (c.nranks : ℚ)
        else sumVecs M fbufs).length = M :=
      final_buf_length M fbufs hM c.nranks average
    have hud : (unflatten (if average
        then (sumVecs M fbufs).map fun x => x / (c.nranks : ℚ)
        else sumVecs M fbufs) ts).length = ts.length :=
      unflatten_length _ ts
    have hdata : ((ts.zip (unflatten (if average
        then (sumVecs M fbufs).map fun x => x / (c.nranks : ℚ)
        else sumVecs M fbufs) ts)).map fun p =>
          { p.1 with data := p.2 }).map Tensor.data
        = unflatten (if average
            then (sumVecs M fbufs).map fun x => x / (c.nranks : ℚ)
            else sumVecs M fbufs) ts :=
      scatter_map_data ts _ hud
    have hjoin : List.flatten (unflatten (if average
        then (sumVecs M fbufs).map fun x => x / (c.nranks : ℚ)
        else sumVecs M fbufs) ts)
        = (if average
           then (sumVecs M fbufs).map fun x => x / (c.nranks : ℚ)
           else sumVecs M fbufs) :=
      flatten_unflatten _ ts (by rw [hfl, hflat])
    refine ⟨(ts.zip (unflatten (if average
        then (sumVecs M fbufs).map fun x => x / (c.nranks : ℚ)
        else sumVecs M fbufs) ts)).map fun p => { p.1 with data := p.2 },
      [.recordEvent .compute, .waitEvent .comm, .flattenOp .comm,
        .commAllreduce .comm]
        ++ (if average then [.divideByNranks .comm c.nranks] else [])
        ++ [.copyBack .comm, .deviceSynchronize], ?_, ?_, ?_⟩
    · simp [allreduce_coalesced, hany, resolveComm]
    · rw [hdata, hjoin]
      exact hfl
    · intro i hi
      rw [hdata, hjoin, hc]
      exact final_buf_getD M fbufs hM fbufs.length average i hi

/-- Witness for C1: all-reducing the scalar buffers 0, 1, 2, 3 over a
4-rank communicator with `average = true` yields 1.5, with the division
in the trace after the reduction. -/
theorem allreduce_sum_then_average_witness :
    ∃ out, allreduce none ⟨Device.cuda 0, [(0 : ℚ)]⟩ (some ⟨0, 4, 0, "u"⟩)
        true (fun _ => sumVecs 1 [[0], [1], [2], [3]])
      = .ok (out, [.recordEvent .compute, .waitEvent .comm,
          .commAllreduce .comm, .divideByNranks .comm 4,
          .deviceSynchronize]) ∧
      out.data.getD 0 0 = 3 / 2 := by
  obtain ⟨out, heq, _hlen, hval⟩ :=
    allreduce_sum_then_average.1 none 1 [[0], [1], [2], [3]] (by decide)
      ⟨0, 4, 0, "u"⟩ rfl true 0 (by decide) 0
  refine ⟨out, heq, ?_⟩
  rw [hval 0 (by decide)]
  norm_num

/-! ### C4: coalescer round trip and the scatter step -/

/-- C4: `unflatten (flatten ts) ts` reproduces the tensors' contents
element for element, and a coalesced collective updates each original
tensor, in input order, with its unflattened slice of the flat buffer the
transport produced (devices untouched). -/
theorem coalesce_roundtrip_and_scatter :
    (∀ ts : List Tensor, ts ≠ [] →
      unflatten (flatten ts) ts = ts.map Tensor.data) ∧
    (∀ (gstate : Option BaguaGlobalState) (ts : List Tensor),
      (∀ u ∈ ts, u.device ≠ Device.cpu) →
      ∀ (root : ℕ) (c : Comm) (tr : List ℚ → List ℚ),
      ∃ outs acts,
        broadcast_coalesced gstate ts root (some c) tr = .ok (outs, acts) ∧
        outs.map Tensor.data = unflatten (tr (flatten ts)) ts ∧
        outs.map Tensor.device = ts.map Tensor.device) ∧
    (∀ (gstate : Option BaguaGlobalState) (ts : List Tensor),
      (∀ u ∈ ts, u.device ≠ Device.cpu) →
      ∀ (c : Comm) (average : Bool) (tr : List ℚ → List ℚ),
      ∃ outs acts,
        allreduce_coalesced gstate ts (some c) average tr = .ok (outs, acts) ∧
        outs.map Tensor.data
          = unflatten (if average
              then (tr (flatten ts)).map fun x => x / (c.nranks : ℚ)
              else tr (flatten ts)) ts ∧
        outs.map Tensor.device = ts.map Tensor.device) := by
  refine ⟨fun ts _ => unflatten_flatten ts, ?_, ?_⟩
  · intro gstate ts hts root c tr
    have hany := any_cpu_eq_false ts hts
    refine ⟨(ts.zip (unflatten (tr (flatten ts)) ts)).map fun p =>
        { p.1 with data := p.2 },
      [.recordEvent .compute, .waitEvent .comm, .flattenOp .comm,
        .commBroadcast .comm root, .copyBack .comm, .deviceSynchronize],
      ?_, ?_, ?_⟩
    · simp [broadcast_coalesced, hany, resolveComm]
    · exact scatter_map_data ts _ (unflatten_length _ ts)
    · exact scatter_map_device ts _ (unflatten_length _ ts)
  · intro gstate ts hts c average tr
    have hany := any_cpu_eq_false ts hts
    refine ⟨(ts.zip (unflatten (if average
        then (tr (flatten ts)).map fun x => x / (c.nranks : ℚ)
        else tr (flatten ts)) ts)).map fun p => { p.1 with data := p.2 },
      [.recordEvent .compute, .waitEvent .comm, .flattenOp .comm,
        .commAllreduce .comm]
        ++ (if average then [.divideByNranks .comm c.nranks] else [])
        ++ [.copyBack .comm, .deviceSynchronize], ?_, ?_, ?_⟩
    · simp [allreduce_coalesced, hany, resolveComm]
    · exact scatter_map_data ts _ (unflatten_length _ ts)
    · exact scatter_map_device ts _ (unflatten_length _ ts)

/-- Witness for C4: a concrete two-tensor list round-trips through
flatten/unflatten and is scattered back in order by both coalesced
collectives (identity transport, `average = false`). -/
theorem coalesce_roundtrip_and_scatter_witness :
    unflatten (flatten [⟨Device.cuda 0, [1, 2]⟩, ⟨Device.cuda 0, [3]⟩])
        [⟨Device.cuda 0, [1, 2]⟩, ⟨Device.cuda 0, [3]⟩]
      = [[1, 2], [3]] ∧
    (∃ outs acts,
      broadcast_coalesced none
          [⟨Device.cuda 0, [1, 2]⟩, ⟨Device.cuda 0, [3]⟩] 0
          (some ⟨0, 2, 0, "u"⟩) (fun l => l)
        = .ok (outs, acts) ∧
      outs.map Tensor.data
        = unflatten (flatten [⟨Device.cuda 0, [1, 2]⟩, ⟨Device.cuda 0, [3]⟩])
            [⟨Device.cuda 0, [1, 2]⟩, ⟨Device.cuda 0, [3]⟩] ∧
      outs.map Tensor.device
        = [⟨Device.cuda 0, [1, 2]⟩, ⟨Device.cuda 0, [3]⟩].map Tensor.device) ∧
    (∃ outs acts,
      allreduce_coalesced none
          [⟨Device.cuda 0, [1, 2]⟩, ⟨Device.cuda 0, [3]⟩]
          (some ⟨0, 2, 0, "u"⟩) false (fun l => l)
        = .ok (outs, acts) ∧
      outs.map Tensor.data
        = unflatten (flatten [⟨Device.cuda 0, [1, 2]⟩, ⟨Device.cuda 0, [3]⟩])
            [⟨Device.cuda 0, [1, 2]⟩, ⟨Device.cuda 0, [3]⟩] ∧
      outs.map Tensor.device
        = [⟨Device.cuda 0, [1, 2]⟩, ⟨Device.cuda 0, [3]⟩].map Tensor.device) := by
  refine ⟨?_, ?_, ?_⟩
  · rw [coalesce_roundtrip_and_scatter.1
      [⟨Device.cuda 0, [1, 2]⟩, ⟨Device.cuda 0, [3]⟩] (by decide)]
    decide
  · exact coalesce_roundtrip_and_scatter.2.1 none
      [⟨Device.cuda 0, [1, 2]⟩, ⟨Device.cuda 0, [3]⟩] (by decide) 0
      ⟨0, 2, 0, "u"⟩ (fun l => l)
  · exact coalesce_roundtrip_and_scatter.2.2 none
      [⟨Device.cuda 0, [1, 2]⟩, ⟨Device.cuda 0, [3]⟩] (by decide)
      ⟨0, 2, 0, "u"⟩ false (fun l => l)

end Bagua

